import Mathlib

/-!
# Verification of the `@softvence/s3` deduplicating upload gateway

A shallow embedding in Lean 4 of the upload-with-deduplication path of the
`@softvence/s3` package: content fingerprinting (SHA-256), MIME-based folder
classification, limit validation, cache lookup/store, and response assembly.

The repository ships the package's type declarations (`S3Response`), constants
(`S3_FOLDERS`, `defaultMetadata`) and module wiring; the service body itself
(`uploadOne` / `uploadMany`) is specified in the design document. Definitions
taken from shipped source files say so in their doc comments; the remaining
operational definitions are modelled from the specification and are marked
`Modelled from the spec:`.

Bytes are `Nat` values below 256; machine words are `Nat` reduced modulo
`2 ^ 32` wherever 32-bit overflow matters.
-/

/-! ## SHA-256 (the content-fingerprint function)

Modelled from the spec: the hash-function collaborator is a deterministic
256-bit digest over a byte sequence ("SHA-256 over raw bytes"), hex-encoded
lowercase.  We implement FIPS 180-4 SHA-256 over `List Nat` bytes. -/

/-- `2 ^ 32`, the modulus for 32-bit words. -/
def M32 : Nat := 4294967296

/-- 32-bit modular addition. -/
def add32 (a b : Nat) : Nat := (a + b) % M32

/-- Right-rotation of a 32-bit word by `n` bits (input assumed reduced). -/
def rotr32 (x n : Nat) : Nat := (x % M32) / 2 ^ n + ((x % M32) % 2 ^ n) * 2 ^ (32 - n)

/-- Logical right shift of a 32-bit word. -/
def shr32 (x n : Nat) : Nat := x / 2 ^ n

/-- Bitwise complement of a 32-bit word. -/
def not32 (x : Nat) : Nat := (x % M32) ^^^ (M32 - 1)

/-- SHA-256 `Ch` function. -/
def ch256 (x y z : Nat) : Nat := (x &&& y) ^^^ (not32 x &&& z)

/-- SHA-256 `Maj` function. -/
def maj256 (x y z : Nat) : Nat := (x &&& y) ^^^ (x &&& z) ^^^ (y &&& z)

/-- SHA-256 big sigma 0. -/
def bigS0 (x : Nat) : Nat := rotr32 x 2 ^^^ rotr32 x 13 ^^^ rotr32 x 22

/-- SHA-256 big sigma 1. -/
def bigS1 (x : Nat) : Nat := rotr32 x 6 ^^^ rotr32 x 11 ^^^ rotr32 x 25

/-- SHA-256 small sigma 0. -/
def smallS0 (x : Nat) : Nat := rotr32 x 7 ^^^ rotr32 x 18 ^^^ shr32 x 3

/-- SHA-256 small sigma 1. -/
def smallS1 (x : Nat) : Nat := rotr32 x 17 ^^^ rotr32 x 19 ^^^ shr32 x 10

/-- The 64 SHA-256 round constants. -/
def K256 : List Nat :=
  [1116352408, 1899447441, 3049323471, 3921009573,
   961987163, 1508970993, 2453635748, 2870763221,
   3624381080, 310598401, 607225278, 1426881987,
   1925078388, 2162078206, 2614888103, 3248222580,
   3835390401, 4022224774, 264347078, 604807628,
   770255983, 1249150122, 1555081692, 1996064986,
   2554220882, 2821834349, 2952996808, 3210313671,
   3336571891, 3584528711, 113926993, 338241895,
   666307205, 773529912, 1294757372, 1396182291,
   1695183700, 1986661051, 2177026350, 2456956037,
   2730485921, 2820302411, 3259730800, 3345764771,
   3516065817, 3600352804, 4094571909, 275423344,
   430227734, 506948616, 659060556, 883997877,
   958139571, 1322822218, 1537002063, 1747873779,
   1955562222, 2024104815, 2227730452, 2361852424,
   2428436474, 2756734187, 3204031479, 3329325298]

/-- The eight 32-bit working variables of the SHA-256 compression function. -/
structure Hash8 where
  a : Nat
  b : Nat
  c : Nat
  d : Nat
  e : Nat
  f : Nat
  g : Nat
  h : Nat
deriving Repr, DecidableEq

/-- SHA-256 initial hash value. -/
def initH : Hash8 :=
  { a := 1779033703
    b := 3144134277
    c := 1013904242
    d := 2773480762
    e := 1359893119
    f := 2600822924
    g := 528734635
    h := 1541459225 }

/-- `k`-byte big-endian encoding of `n`. -/
def toBytesBE (k n : Nat) : List Nat :=
  match k with
  | 0 => []
  | j + 1 => toBytesBE j (n / 256) ++ [n % 256]

/-- SHA-256 padding: append `0x80`, zero bytes, then the 64-bit big-endian
bit length, so the total length is a multiple of 64. -/
def padMessage (msg : List Nat) : List Nat :=
  let zeros := (64 - (msg.length + 9) % 64) % 64
  msg ++ [0x80] ++ List.replicate zeros 0 ++ toBytesBE 8 (msg.length * 8)

/-- Split a byte list into 64-byte blocks, with fuel for structural recursion
(each step consumes a nonempty list, so `bs.length` fuel always suffices). -/
def chunkBlocksAux : Nat → List Nat → List (List Nat)
  | 0, _ => []
  | _, [] => []
  | fuel + 1, x :: rest => (x :: rest).take 64 :: chunkBlocksAux fuel ((x :: rest).drop 64)

/-- Split a byte list into 64-byte blocks. -/
def chunkBlocks (bs : List Nat) : List (List Nat) := chunkBlocksAux bs.length bs

/-- Big-endian 32-bit words from a byte list (4 bytes per word). -/
def bytesToWords : List Nat → List Nat
  | a :: b :: c :: d :: rest => (((a * 256 + b) * 256 + c) * 256 + d) :: bytesToWords rest
  | _ => []

/-- Extend a message schedule by `n` further words per the SHA-256 recurrence. -/
def extendLoop : Nat → List Nat → List Nat
  | 0, w => w
  | n + 1, w =>
      let t := w.length
      let wt := add32 (add32 (smallS1 (w.getD (t - 2) 0)) (w.getD (t - 7) 0))
                      (add32 (smallS0 (w.getD (t - 15) 0)) (w.getD (t - 16) 0))
      extendLoop n (w ++ [wt])

/-- Full 64-word message schedule from the 16 words of one block. -/
def extendSchedule (w16 : List Nat) : List Nat := extendLoop 48 w16

/-- One SHA-256 compression round with round constant `k` and schedule word `w`. -/
def round256 (s : Hash8) (kw : Nat × Nat) : Hash8 :=
  let t1 := add32 s.h (add32 (bigS1 s.e) (add32 (ch256 s.e s.f s.g) (add32 kw.1 kw.2)))
  let t2 := add32 (bigS0 s.a) (maj256 s.a s.b s.c)
  { a := add32 t1 t2, b := s.a, c := s.b, d := s.c,
    e := add32 s.d t1, f := s.e, g := s.f, h := s.g }

/-- Compress one 64-byte block into the running hash value. -/
def compressBlock (hv : Hash8) (block : List Nat) : Hash8 :=
  let w := extendSchedule (bytesToWords block)
  let s := (K256.zip w).foldl round256 hv
  { a := add32 hv.a s.a, b := add32 hv.b s.b, c := add32 hv.c s.c, d := add32 hv.d s.d,
    e := add32 hv.e s.e, f := add32 hv.f s.f, g := add32 hv.g s.g, h := add32 hv.h s.h }

/-- SHA-256 of a byte sequence, as eight 32-bit words. -/
def sha256Words (msg : List Nat) : Hash8 :=
  (chunkBlocks (padMessage msg)).foldl compressBlock initH

/-- The sixteen lowercase hexadecimal digits. -/
def hexDigits : List Char :=
  ['0', '1', '2', '3', '4', '5', '6', '7'] ++ ['8', '9', 'a', 'b', 'c', 'd', 'e', 'f']

/-- Lowercase hex digit of `n % 16`. -/
def hexChar (n : Nat) : Char :=
  match n % 16 with
  | 0 => '0' | 1 => '1' | 2 => '2' | 3 => '3'
  | 4 => '4' | 5 => '5' | 6 => '6' | 7 => '7'
  | 8 => '8' | 9 => '9' | 10 => 'a' | 11 => 'b'
  | 12 => 'c' | 13 => 'd' | 14 => 'e' | _ => 'f'

/-- Eight lowercase hex characters of a 32-bit word, most significant first. -/
def toHex32 (n : Nat) : List Char :=
  [hexChar (n / 16 ^ 7), hexChar (n / 16 ^ 6), hexChar (n / 16 ^ 5), hexChar (n / 16 ^ 4),
   hexChar (n / 16 ^ 3), hexChar (n / 16 ^ 2), hexChar (n / 16 ^ 1), hexChar n]

/-- Modelled from the spec: the content fingerprint — SHA-256 over the raw
bytes, hex-encoded lowercase (a 64-character string encoding 256 bits). -/
def sha256Hex (msg : List Nat) : String :=
  let hv := sha256Words msg
  String.mk (toHex32 hv.a ++ toHex32 hv.b ++ toHex32 hv.c ++ toHex32 hv.d ++
             toHex32 hv.e ++ toHex32 hv.f ++ toHex32 hv.g ++ toHex32 hv.h)

example : sha256Hex [] =
    "e3b0c44298fc1c149afbf4c8996fb92427ae41e4649b934ca495991b7852b855" := by decide

example : sha256Hex [0x61, 0x62, 0x63] =
    "ba7816bf8f01cfea414140de5dae2223b00361a396177a9cb410ff61f20015ad" := by decide

/-! ## Strings: case lowering and prefix testing

Modelled from the spec: classification is a "case-insensitive match" on the
MIME type's prefix; we lower ASCII letters and test char-list prefixes. -/

/-- ASCII lowering of one character (A-Z to a-z, all others unchanged). -/
def lowerChar (c : Char) : Char :=
  if 'A' ≤ c ∧ c ≤ 'Z' then Char.ofNat (c.toNat + 32) else c

/-- ASCII lowering of a string. -/
def lowerStr (s : String) : String := String.mk (s.data.map lowerChar)

/-- Boolean test: the first list is an initial segment of the second. -/
def listStarts : List Char → List Char → Bool
  | [], _ => true
  | _ :: _, [] => false
  | p :: ps, c :: cs => p == c && listStarts ps cs

/-- Boolean test: string `p` is an initial segment of string `s`. -/
def strStarts (p s : String) : Bool := listStarts p.data s.data

/-! ## Data model

`S3_FOLDERS`, `defaultMetadata` and `S3Response` are transcribed from the
shipped source files `s3.constants.ts` and `types/index.ts`; the remaining
types are the collaborator interfaces of the specification. -/

/-- From `s3.constants.ts`: the folder names used for auto-organization. -/
def S3_FOLDERS : List String := ["images", "audio", "videos", "documents"]

/-- Caller-supplied upload metadata (`Metadata` of `s3.options.ts`, whose
fields are those populated by `defaultMetadata` in `s3.constants.ts`):
per-file size limit, batch count limit, optional display name, optional
precomputed fingerprint. -/
structure Metadata where
  maxFileSize : Nat
  maxFiles : Nat
  actualFileName : String
  fileHash : String
deriving Repr, DecidableEq

/-- From `s3.constants.ts`: `defaultMetadata` — the limits used when the
caller supplies none (20 MB per file, 20 files per batch, empty display
name and empty precomputed hash). -/
def defaultMetadata : Metadata :=
  { maxFileSize := 20 * 1024 * 1024
    maxFiles := 20
    actualFileName := ""
    fileHash := "" }

/-- From `types/index.ts`: the public response record `S3Response`.  The
fields `hash`, `cached`, `cacheKey` and `metadata` are optional (`?:` in the
source) and are embedded as `Option`; all other fields are required.  The
`uploadedAt : Date` timestamp is embedded as a logical clock value. -/
structure S3Response where
  url : String
  bucket : String
  region : String
  originalName : String
  size : Nat
  mimeType : String
  extension : String
  folder : String
  hash : Option String
  cached : Option Bool
  cacheKey : Option String
  uploadedAt : Nat
  metadata : Option Metadata
deriving Repr, DecidableEq

/-- One in-memory upload payload (the spec's `UploadRequest`): raw bytes,
declared content type, original file name, and declared byte length. -/
structure Payload where
  buffer : List Nat
  mimetype : String
  originalname : String
  size : Nat
deriving Repr, DecidableEq

/-- Cache configuration of the module options (`cache: { isCache ... }` as in
the example application's `S3Module.forRoot` call), with the entry TTL. -/
structure CacheOptions where
  isCache : Bool
  ttl : Nat
deriving Repr, DecidableEq

/-- Construction-time module options (`S3ModuleOptions`): region, bucket,
credentials, cache settings. -/
structure S3ModuleOptions where
  region : String
  bucket : String
  accessKeyId : String
  secretAccessKey : String
  cache : CacheOptions
deriving Repr, DecidableEq

/-- The storage client's successful put outcome: `{url, bucket, region}`. -/
structure PutResult where
  url : String
  bucket : String
  region : String
deriving Repr, DecidableEq

/-- A recorded invocation of the storage client's put operation. -/
structure PutCall where
  bytes : List Nat
  key : String
  contentType : String
deriving Repr, DecidableEq

/-- The object-storage collaborator: `put(bytes, key, contentType)` returns a
location or a transport-level error message. -/
def StorageClient : Type := List Nat → String → String → Except String PutResult

/-- One cache entry: lookup key, absolute expiry instant, stored result. -/
structure CacheEntry where
  key : String
  expiresAt : Nat
  value : S3Response
deriving Repr, DecidableEq

/-- Observable state threaded through gateway calls: the cache contents, the
log of storage-client put invocations, and the logical clock. -/
structure GatewayState where
  cache : List CacheEntry
  putLog : List PutCall
  now : Nat
deriving Repr, DecidableEq

/-- The state before any upload: empty cache, no put calls, clock at zero. -/
def initState : GatewayState := { cache := [], putLog := [], now := 0 }

/-- The gateway's error taxonomy (spec section 7). -/
inductive S3Error where
  | NoFilesProvided : S3Error
  | TooManyFiles : Nat → Nat → S3Error
  | PayloadTooLarge : String → Nat → Nat → S3Error
  | UploadFailed : String → S3Error
deriving Repr, DecidableEq

/-! ## The deduplicating upload gateway

Modelled from the spec (section 4.1): validation, classification,
fingerprint + cache lookup, storage put, response assembly, cache store.
The storage client and the clock are explicit parameters/state; every put
invocation (successful or failed) is recorded in `GatewayState.putLog`. -/

/-- Modelled from the spec: folder classification — case-insensitive prefix
match on `image/`, `video/`, `audio/`; every other content type (unknown or
empty included) classifies as `documents`. -/
def classifyFolder (mimeType : String) : String :=
  if strStarts "image/" (lowerStr mimeType) then "images"
  else if strStarts "video/" (lowerStr mimeType) then "videos"
  else if strStarts "audio/" (lowerStr mimeType) then "audio"
  else "documents"

/-- Cache lookup: first entry whose key matches and whose expiry instant is
still in the future; an entry whose TTL has elapsed is treated as absent. -/
def cacheGet (cache : List CacheEntry) (now : Nat) (k : String) : Option S3Response :=
  match cache with
  | [] => none
  | e :: rest => if e.key = k ∧ now < e.expiresAt then some e.value else cacheGet rest now k

/-- Characters preceding the first dot of a reversed name, if any dot
exists (the extension of the un-reversed name, reversed). -/
def takeUntilDot : List Char → Option (List Char)
  | [] => none
  | c :: cs => if c = '.' then some [] else (takeUntilDot cs).map (fun l => c :: l)

/-- File extension: the part of the name after the last dot, or `""` when
the name has no dot. -/
def extOf (name : String) : String :=
  match takeUntilDot name.data.reverse with
  | none => ""
  | some revExt => String.mk revExt.reverse

/-- Modelled from the spec: the cache key — the fingerprint namespaced by the
bucket identity. -/
def cacheKeyOf (cfg : S3ModuleOptions) (fp : String) : String :=
  cfg.bucket ++ ":" ++ cfg.region ++ ":" ++ fp

/-- Modelled from the spec: the derived object key (folder plus file name;
the spec leaves the exact derivation a free choice). -/
def objectKeyOf (folder : String) (p : Payload) : String :=
  folder ++ "/" ++ p.originalname

/-- Invoke the storage client's put operation, recording the call. -/
def invokePut (client : StorageClient) (bytes : List Nat) (key ct : String)
    (st : GatewayState) : Except String PutResult × GatewayState :=
  (client bytes key ct,
   { st with putLog := st.putLog ++ [{ bytes := bytes, key := key, contentType := ct }] })

/-- Assemble the `S3Response` for a live (non-cached) upload from the storage
client's returned location plus payload metadata and classification;
`cached = false`. -/
def buildResponse (pr : PutResult) (p : Payload) (folder : String)
    (hash : Option String) (meta : Metadata) (now : Nat) : S3Response :=
  { url := pr.url
    bucket := pr.bucket
    region := pr.region
    originalName := p.originalname
    size := p.size
    mimeType := p.mimetype
    extension := extOf p.originalname
    folder := folder
    hash := hash
    cached := some false
    cacheKey := none
    uploadedAt := now
    metadata := some meta }

/-- Modelled from the spec: `uploadOne` with resolved metadata.  Validate the
size limit (`PayloadTooLarge`), classify the folder; with caching enabled,
compute the fingerprint and look up the cache — on a hit return the stored
result with `cached = true`, `cacheKey` and `hash` set, performing no put;
on a miss (or with caching disabled) invoke the storage client's put
(`UploadFailed` wrapping the cause on failure), assemble the response with
`cached = false`, and on the cached path store it under the fingerprint key
with the configured TTL. -/
def uploadOneWith (client : StorageClient) (cfg : S3ModuleOptions) (p : Payload)
    (meta : Metadata) (st : GatewayState) : Except S3Error S3Response × GatewayState :=
  if meta.maxFileSize < p.size then
    (.error (.PayloadTooLarge p.originalname p.size meta.maxFileSize), st)
  else
    let folder := classifyFolder p.mimetype
    if cfg.cache.isCache then
      let fp := sha256Hex p.buffer
      let key := cacheKeyOf cfg fp
      match cacheGet st.cache st.now key with
      | some res =>
          (.ok { res with cached := some true, cacheKey := some key, hash := some fp }, st)
      | none =>
          match invokePut client p.buffer (objectKeyOf folder p) p.mimetype st with
          | (.error cause, st') => (.error (.UploadFailed cause), st')
          | (.ok pr, st') =>
              let res := buildResponse pr p folder (some fp) meta st'.now
              (.ok res,
               { st' with cache := st'.cache ++
                  [{ key := key, expiresAt := st'.now + cfg.cache.ttl, value := res }] })
    else
      match invokePut client p.buffer (objectKeyOf folder p) p.mimetype st with
      | (.error cause, st') => (.error (.UploadFailed cause), st')
      | (.ok pr, st') => (.ok (buildResponse pr p folder none meta st'.now), st')

/-- Modelled from the spec: the public single-file entry point; absent caller
metadata resolves to `defaultMetadata`. -/
def uploadOne (client : StorageClient) (cfg : S3ModuleOptions) (p : Payload)
    (metaOpt : Option Metadata) (st : GatewayState) :
    Except S3Error S3Response × GatewayState :=
  uploadOneWith client cfg p (metaOpt.getD defaultMetadata) st

/-- Modelled from the spec: apply `uploadOne` to each payload in input order,
threading the state; the first per-item failure aborts the remainder
(fail-fast), with no rollback of state already produced. -/
def uploadManyWith (client : StorageClient) (cfg : S3ModuleOptions) :
    List Payload → Metadata → GatewayState →
    Except S3Error (List S3Response) × GatewayState
  | [], _, st => (.ok [], st)
  | p :: rest, meta, st =>
      match uploadOneWith client cfg p meta st with
      | (.error e, st') => (.error e, st')
      | (.ok r, st') =>
          match uploadManyWith client cfg rest meta st' with
          | (.error e, st'') => (.error e, st'')
          | (.ok rs, st'') => (.ok (r :: rs), st'')

/-- Modelled from the spec: the public batch entry point — `NoFilesProvided`
on an empty batch, `TooManyFiles` past `maxFiles`, else the fail-fast map of
`uploadOne` over the payloads. -/
def uploadMany (client : StorageClient) (cfg : S3ModuleOptions) (ps : List Payload)
    (metaOpt : Option Metadata) (st : GatewayState) :
    Except S3Error (List S3Response) × GatewayState :=
  let meta := metaOpt.getD defaultMetadata
  if ps.isEmpty then (.error .NoFilesProvided, st)
  else if meta.maxFiles < ps.length then
    (.error (.TooManyFiles ps.length meta.maxFiles), st)
  else uploadManyWith client cfg ps meta st

/-- The state reached after processing a list of payloads in order, threading
`uploadOneWith` (the intermediate states of a batch). -/
def stateAfter (client : StorageClient) (cfg : S3ModuleOptions) (meta : Metadata) :
    List Payload → GatewayState → GatewayState
  | [], st => st
  | p :: ps, st => stateAfter client cfg meta ps (uploadOneWith client cfg p meta st).2

/-! ## Concrete test fixtures (used by witnesses and counterexamples) -/

/-- A deterministic storage-client double that always succeeds, returning the
bucket/region of the example application and a URL derived from the key. -/
def testClient : StorageClient :=
  fun _ key _ =>
    .ok { url := "https://softvence-s3-example.s3.us-east-1.amazonaws.com/" ++ key
          bucket := "softvence-s3-example"
          region := "us-east-1" }

/-- A storage-client double that fails with a transport error on the byte
pattern `[9, 9]` and succeeds otherwise. -/
def failingClient : StorageClient :=
  fun bytes key _ =>
    if bytes = [9, 9] then .error "network down"
    else
      .ok { url := "https://softvence-s3-example.s3.us-east-1.amazonaws.com/" ++ key
            bucket := "softvence-s3-example"
            region := "us-east-1" }

/-- Module options with caching enabled and a TTL of 86400 seconds. -/
def testCfg : S3ModuleOptions :=
  { region := "us-east-1"
    bucket := "softvence-s3-example"
    accessKeyId := "AWS_ACCESS_KEY_ID"
    secretAccessKey := "AWS_SECRET_ACCESS_KEY"
    cache := { isCache := true, ttl := 86400 } }

/-- Module options with caching disabled, as in the example application. -/
def testCfgNoCache : S3ModuleOptions :=
  { testCfg with cache := { isCache := false, ttl := 0 } }

/-- Small limits for exercising the boundary checks. -/
def smallMeta : Metadata :=
  { maxFileSize := 4, maxFiles := 2, actualFileName := "", fileHash := "" }

/-- A 3-byte PNG payload. -/
def testPayload : Payload :=
  { buffer := [1, 2, 3], mimetype := "image/png", originalname := "a.png", size := 3 }

/-- A 2-byte PDF payload with bytes distinct from `testPayload`. -/
def pdfPayload : Payload :=
  { buffer := [4, 5], mimetype := "application/pdf", originalname := "b.pdf", size := 2 }

/-- The payload on which `failingClient` fails. -/
def failPayload : Payload :=
  { buffer := [9, 9], mimetype := "video/mp4", originalname := "c.mp4", size := 2 }

/-- A declared payload of one byte over the 20 MB default limit. -/
def bigPayload : Payload :=
  { buffer := [], mimetype := "application/octet-stream", originalname := "big.bin"
    size := 20 * 1024 * 1024 + 1 }

/-- A payload of one byte over `smallMeta.maxFileSize`. -/
def overPayload : Payload :=
  { buffer := [1, 2, 3, 4, 5], mimetype := "text/plain", originalname := "over.txt", size := 5 }

/-- A payload of exactly `smallMeta.maxFileSize` bytes. -/
def exactPayload : Payload :=
  { buffer := [1, 2, 3, 4], mimetype := "text/plain", originalname := "exact.txt", size := 4 }

/-- Placeholder payload for index-default lookups. -/
def dummyPayload : Payload :=
  { buffer := [], mimetype := "", originalname := "", size := 0 }

/-- Placeholder response for index-default lookups. -/
def dummyResponse : S3Response :=
  { url := "", bucket := "", region := "", originalName := "", size := 0, mimeType := ""
    extension := "", folder := "", hash := none, cached := none, cacheKey := none
    uploadedAt := 0, metadata := none }

/-- State after uploading `testPayload` through `failingClient` with caching
disabled (the first, succeeding item of the failing-batch scenario). -/
def stAfterFirst : GatewayState :=
  (uploadOneWith failingClient testCfgNoCache testPayload defaultMetadata initState).2

/-- The first item's response in the failing-batch scenario. -/
def respFirst : S3Response :=
  ((uploadOneWith failingClient testCfgNoCache testPayload defaultMetadata
      initState).1.toOption.getD dummyResponse)

/-- State after the failed put of `failPayload` in the failing-batch scenario. -/
def stAfterFail : GatewayState :=
  (uploadOneWith failingClient testCfgNoCache failPayload defaultMetadata stAfterFirst).2

/-- Results of the two-distinct-payload batch with caching disabled. -/
def pairResults : List S3Response :=
  ((uploadManyWith testClient testCfgNoCache [testPayload, pdfPayload] defaultMetadata
      initState).1.toOption.getD [])

/-- First result of the duplicate-payload batch with caching enabled. -/
def dupFirst : S3Response :=
  ((uploadOne testClient testCfg testPayload none initState).1.toOption.getD dummyResponse)

/-- Second result of the duplicate-payload batch with caching enabled. -/
def dupSecond : S3Response :=
  (((uploadMany testClient testCfg [testPayload, testPayload] none
      initState).1.toOption.getD []).getD 1 dummyResponse)

/-! ## Helper lemmas -/

/-- Every hex digit produced by `hexChar` is one of the sixteen lowercase
hexadecimal characters. -/
theorem hexChar_mem (n : Nat) : hexChar n ∈ hexDigits := by
  unfold hexChar
  have h : n % 16 < 16 := Nat.mod_lt _ (by decide)
  generalize n % 16 = m at h ⊢
  interval_cases m <;> decide

/-- Every character of `toHex32` is a lowercase hexadecimal character. -/
theorem toHex32_mem {c : Char} {n : Nat} (hc : c ∈ toHex32 n) : c ∈ hexDigits := by
  simp only [toHex32, List.mem_cons, List.not_mem_nil, or_false] at hc
  rcases hc with h | h | h | h | h | h | h | h <;> (subst h; exact hexChar_mem _)

/-- Lists starting with different heads cannot both begin the same list. -/
theorem listStarts_first {a b : Char} {as bs l : List Char} (hab : a ≠ b)
    (h1 : listStarts (a :: as) l = true) : listStarts (b :: bs) l = false := by
  cases l with
  | nil => simp [listStarts] at h1
  | cons c cs =>
    simp only [listStarts, Bool.and_eq_true, beq_iff_eq] at h1
    have hbc : (b == c) = false :=
      beq_eq_false_iff_ne.mpr (fun hbc2 => hab (h1.1.trans hbc2.symm))
    simp [listStarts, hbc]

/-- String prefixes with different first characters exclude one another. -/
theorem strStarts_clash {p q t : String} {a b : Char} {as bs : List Char}
    (hp : p.data = a :: as) (hq : q.data = b :: bs) (hab : a ≠ b)
    (h1 : strStarts p t = true) : strStarts q t = false := by
  unfold strStarts at h1 ⊢
  rw [hp] at h1
  rw [hq]
  exact listStarts_first hab h1

/-- A lookup that misses the first segment of an appended cache continues in
the second segment. -/
theorem cacheGet_append_none {l1 l2 : List CacheEntry} {now : Nat} {k : String}
    (h : cacheGet l1 now k = none) : cacheGet (l1 ++ l2) now k = cacheGet l2 now k := by
  induction l1 with
  | nil => simp
  | cons e rest ih =>
    simp only [List.cons_append, cacheGet] at h ⊢
    by_cases hek : e.key = k ∧ now < e.expiresAt
    · rw [if_pos hek] at h; exact absurd h (by simp)
    · rw [if_neg hek] at h ⊢
      exact ih h

/-- Oversize branch: a payload above the limit fails with `PayloadTooLarge`
and leaves the state untouched. -/
theorem uploadOneWith_too_large (client : StorageClient) (cfg : S3ModuleOptions)
    (p : Payload) (meta : Metadata) (st : GatewayState)
    (hsize : meta.maxFileSize < p.size) :
    uploadOneWith client cfg p meta st =
      (.error (.PayloadTooLarge p.originalname p.size meta.maxFileSize), st) := by
  simp [uploadOneWith, hsize]

/-- Cache-hit branch: the stored result is returned with `cached = true`,
`cacheKey` and `hash` set, and no state change. -/
theorem uploadOneWith_hit_eq (client : StorageClient) (cfg : S3ModuleOptions)
    (p : Payload) (meta : Metadata) (st : GatewayState) (res : S3Response)
    (hsize : ¬ meta.maxFileSize < p.size) (hc : cfg.cache.isCache = true)
    (hhit : cacheGet st.cache st.now (cacheKeyOf cfg (sha256Hex p.buffer)) = some res) :
    uploadOneWith client cfg p meta st =
      (.ok { res with cached := some true
                      cacheKey := some (cacheKeyOf cfg (sha256Hex p.buffer))
                      hash := some (sha256Hex p.buffer) }, st) := by
  simp [uploadOneWith, hc, hhit, hsize]

/-- Cache-miss, successful-put branch: the storage client is invoked once,
the response is assembled with `cached = false` and stored in the cache with
the configured TTL. -/
theorem uploadOneWith_miss_eq (client : StorageClient) (cfg : S3ModuleOptions)
    (p : Payload) (meta : Metadata) (st : GatewayState) (pr : PutResult)
    (hsize : ¬ meta.maxFileSize < p.size) (hc : cfg.cache.isCache = true)
    (hmiss : cacheGet st.cache st.now (cacheKeyOf cfg (sha256Hex p.buffer)) = none)
    (hput : client p.buffer (objectKeyOf (classifyFolder p.mimetype) p) p.mimetype = .ok pr) :
    uploadOneWith client cfg p meta st =
      (.ok (buildResponse pr p (classifyFolder p.mimetype) (some (sha256Hex p.buffer))
              meta st.now),
       { st with
          putLog := st.putLog ++
            [{ bytes := p.buffer, key := objectKeyOf (classifyFolder p.mimetype) p,
               contentType := p.mimetype }]
          cache := st.cache ++
            [{ key := cacheKeyOf cfg (sha256Hex p.buffer)
               expiresAt := st.now + cfg.cache.ttl
               value := buildResponse pr p (classifyFolder p.mimetype)
                          (some (sha256Hex p.buffer)) meta st.now }] }) := by
  simp [uploadOneWith, invokePut, hc, hmiss, hput, hsize]

/-- Cache-disabled, successful-put branch: one put invocation, response with
`cached = false` and no fingerprint, no cache mutation. -/
theorem uploadOneWith_nocache_ok (client : StorageClient) (cfg : S3ModuleOptions)
    (p : Payload) (meta : Metadata) (st : GatewayState) (pr : PutResult)
    (hsize : ¬ meta.maxFileSize < p.size) (hc : cfg.cache.isCache = false)
    (hput : client p.buffer (objectKeyOf (classifyFolder p.mimetype) p) p.mimetype = .ok pr) :
    uploadOneWith client cfg p meta st =
      (.ok (buildResponse pr p (classifyFolder p.mimetype) none meta st.now),
       { st with
          putLog := st.putLog ++
            [{ bytes := p.buffer, key := objectKeyOf (classifyFolder p.mimetype) p,
               contentType := p.mimetype }] }) := by
  simp [uploadOneWith, invokePut, hc, hput, hsize]

/-- Cache-disabled, failed-put branch: the put is invoked (and recorded) and
the failure is surfaced as `UploadFailed` wrapping the cause. -/
theorem uploadOneWith_nocache_error (client : StorageClient) (cfg : S3ModuleOptions)
    (p : Payload) (meta : Metadata) (st : GatewayState) (cause : String)
    (hsize : ¬ meta.maxFileSize < p.size) (hc : cfg.cache.isCache = false)
    (hput : client p.buffer (objectKeyOf (classifyFolder p.mimetype) p) p.mimetype =
      .error cause) :
    uploadOneWith client cfg p meta st =
      (.error (.UploadFailed cause),
       { st with
          putLog := st.putLog ++
            [{ bytes := p.buffer, key := objectKeyOf (classifyFolder p.mimetype) p,
               contentType := p.mimetype }] }) := by
  simp [uploadOneWith, invokePut, hc, hput, hsize]

/-- `uploadOneWith` never changes the logical clock. -/
theorem uploadOneWith_now (client : StorageClient) (cfg : S3ModuleOptions) (p : Payload)
    (meta : Metadata) (st : GatewayState) :
    (uploadOneWith client cfg p meta st).2.now = st.now := by
  by_cases hsize : meta.maxFileSize < p.size
  · rw [uploadOneWith_too_large client cfg p meta st hsize]
  · by_cases hc : cfg.cache.isCache
    · cases hg : cacheGet st.cache st.now (cacheKeyOf cfg (sha256Hex p.buffer)) with
      | some res => rw [uploadOneWith_hit_eq client cfg p meta st res hsize hc hg]
      | none =>
        cases hcl : client p.buffer (objectKeyOf (classifyFolder p.mimetype) p) p.mimetype with
        | error c =>
          simp [uploadOneWith, invokePut, hc, hg, hcl, hsize]
        | ok pr =>
          rw [uploadOneWith_miss_eq client cfg p meta st pr hsize hc hg hcl]
    · have hc' : cfg.cache.isCache = false := by simpa using hc
      cases hcl : client p.buffer (objectKeyOf (classifyFolder p.mimetype) p) p.mimetype with
      | error c => rw [uploadOneWith_nocache_error client cfg p meta st c hsize hc' hcl]
      | ok pr => rw [uploadOneWith_nocache_ok client cfg p meta st pr hsize hc' hcl]

/-- The put log only grows: whatever `uploadOneWith` does, the put calls
already recorded are still there afterwards. -/
theorem uploadOneWith_putLog_extends (client : StorageClient) (cfg : S3ModuleOptions)
    (p : Payload) (meta : Metadata) (st : GatewayState) :
    ∃ l, (uploadOneWith client cfg p meta st).2.putLog = st.putLog ++ l := by
  by_cases hsize : meta.maxFileSize < p.size
  · exact ⟨[], by rw [uploadOneWith_too_large client cfg p meta st hsize]; simp⟩
  · by_cases hc : cfg.cache.isCache
    · cases hg : cacheGet st.cache st.now (cacheKeyOf cfg (sha256Hex p.buffer)) with
      | some res =>
        exact ⟨[], by rw [uploadOneWith_hit_eq client cfg p meta st res hsize hc hg]; simp⟩
      | none =>
        cases hcl : client p.buffer (objectKeyOf (classifyFolder p.mimetype) p) p.mimetype with
        | error c =>
          refine ⟨[{ bytes := p.buffer, key := objectKeyOf (classifyFolder p.mimetype) p,
                     contentType := p.mimetype }], ?_⟩
          simp [uploadOneWith, invokePut, hc, hg, hcl, hsize]
        | ok pr =>
          refine ⟨[{ bytes := p.buffer, key := objectKeyOf (classifyFolder p.mimetype) p,
                     contentType := p.mimetype }], ?_⟩
          rw [uploadOneWith_miss_eq client cfg p meta st pr hsize hc hg hcl]
    · have hc' : cfg.cache.isCache = false := by simpa using hc
      cases hcl : client p.buffer (objectKeyOf (classifyFolder p.mimetype) p) p.mimetype with
      | error c =>
        refine ⟨[{ bytes := p.buffer, key := objectKeyOf (classifyFolder p.mimetype) p,
                   contentType := p.mimetype }], ?_⟩
        rw [uploadOneWith_nocache_error client cfg p meta st c hsize hc' hcl]
      | ok pr =>
        refine ⟨[{ bytes := p.buffer, key := objectKeyOf (classifyFolder p.mimetype) p,
                   contentType := p.mimetype }], ?_⟩
        rw [uploadOneWith_nocache_ok client cfg p meta st pr hsize hc' hcl]

/-- With caching disabled the produced result does not depend on the threaded
state beyond the clock value: states agreeing on `now` give equal results. -/
theorem uploadOneWith_nocache_fst (client : StorageClient) (cfg : S3ModuleOptions)
    (p : Payload) (meta : Metadata) (st st' : GatewayState)
    (hc : cfg.cache.isCache = false) (hnow : st.now = st'.now) :
    (uploadOneWith client cfg p meta st).1 = (uploadOneWith client cfg p meta st').1 := by
  by_cases hsize : meta.maxFileSize < p.size
  · rw [uploadOneWith_too_large client cfg p meta st hsize,
        uploadOneWith_too_large client cfg p meta st' hsize]
  · cases hcl : client p.buffer (objectKeyOf (classifyFolder p.mimetype) p) p.mimetype with
    | error c =>
      rw [uploadOneWith_nocache_error client cfg p meta st c hsize hc hcl,
          uploadOneWith_nocache_error client cfg p meta st' c hsize hc hcl]
    | ok pr =>
      rw [uploadOneWith_nocache_ok client cfg p meta st pr hsize hc hcl,
          uploadOneWith_nocache_ok client cfg p meta st' pr hsize hc hcl]
      simp [hnow]

/-! ## Claim theorems -/

/-- C2: the folder classification function is total — for every MIME type
string it returns exactly one of the four folder names of `S3_FOLDERS` — and
it classifies by case-insensitive prefix match: `image/` to `images`,
`video/` to `videos`, `audio/` to `audio`, and every other string (unknown
and empty included) to `documents`. -/
theorem classification_total_and_cases (s : String) :
    classifyFolder s ∈ S3_FOLDERS ∧
    (strStarts "image/" (lowerStr s) = true → classifyFolder s = "images") ∧
    (strStarts "video/" (lowerStr s) = true → classifyFolder s = "videos") ∧
    (strStarts "audio/" (lowerStr s) = true → classifyFolder s = "audio") ∧
    (strStarts "image/" (lowerStr s) = false → strStarts "video/" (lowerStr s) = false →
      strStarts "audio/" (lowerStr s) = false → classifyFolder s = "documents") := by
  refine ⟨?_, ?_, ?_, ?_, ?_⟩
  · unfold classifyFolder
    split
    · simp [S3_FOLDERS]
    · split
      · simp [S3_FOLDERS]
      · split
        · simp [S3_FOLDERS]
        · simp [S3_FOLDERS]
  · intro h
    simp [classifyFolder, h]
  · intro h
    have himg : strStarts "image/" (lowerStr s) = false :=
      strStarts_clash (p := "video/") (q := "image/") rfl rfl (by decide) h
    simp [classifyFolder, himg, h]
  · intro h
    have himg : strStarts "image/" (lowerStr s) = false :=
      strStarts_clash (p := "audio/") (q := "image/") rfl rfl (by decide) h
    have hvid : strStarts "video/" (lowerStr s) = false :=
      strStarts_clash (p := "audio/") (q := "video/") rfl rfl (by decide) h
    simp [classifyFolder, himg, hvid, h]
  · intro h1 h2 h3
    simp [classifyFolder, h1, h2, h3]

/-- C2 witness: the classification evaluated at the spec's sample MIME types,
including a mixed-case one and the empty string. -/
theorem classification_witness :
    classifyFolder "Image/PNG" = "images" ∧
    classifyFolder "video/mp4" = "videos" ∧
    classifyFolder "audio/mpeg" = "audio" ∧
    classifyFolder "application/pdf" = "documents" ∧
    classifyFolder "" = "documents" :=
  ⟨(classification_total_and_cases "Image/PNG").2.1 (by decide),
   (classification_total_and_cases "video/mp4").2.2.1 (by decide),
   (classification_total_and_cases "audio/mpeg").2.2.2.1 (by decide),
   (classification_total_and_cases "application/pdf").2.2.2.2 (by decide) (by decide)
     (by decide),
   (classification_total_and_cases "").2.2.2.2 (by decide) (by decide) (by decide)⟩

/-- C4: the fingerprint is a pure, deterministic function of the byte
contents — recomputation yields the same digest (no per-process salt exists
in the model, a total function of the bytes alone) — and the digest is a
64-character string over the sixteen lowercase hexadecimal digits, i.e. a
hex-encoded **lowercase** 256-bit value. -/
theorem fingerprint_deterministic_hex (b : List Nat) :
    sha256Hex b = sha256Hex b ∧
    (sha256Hex b).length = 64 ∧
    (∀ c, c ∈ (sha256Hex b).data → c ∈ hexDigits) := by
  refine ⟨rfl, ?_, ?_⟩
  · show (String.mk _).length = 64
    simp [String.length, toHex32]
  · intro c hc
    show c ∈ hexDigits
    have hc' : c ∈ toHex32 (sha256Words b).a ++ toHex32 (sha256Words b).b ++
        toHex32 (sha256Words b).c ++ toHex32 (sha256Words b).d ++
        toHex32 (sha256Words b).e ++ toHex32 (sha256Words b).f ++
        toHex32 (sha256Words b).g ++ toHex32 (sha256Words b).h := hc
    simp only [List.append_assoc, List.mem_append] at hc'
    rcases hc' with h | h | h | h | h | h | h | h <;> exact toHex32_mem h

/-- C4 witness: the fingerprint of a concrete byte sequence is 64 characters
long. -/
theorem fingerprint_witness : (sha256Hex [1, 2, 3]).length = 64 :=
  (fingerprint_deterministic_hex [1, 2, 3]).2.1

/-- C9: in the response type `S3Response` the fields `hash`, `cached`,
`cacheKey` and `metadata` are optional (`Option`, may be `none`) while the
remaining fields (`url`, `bucket`, `region`, `originalName`, `size`,
`mimeType`, `extension`, `folder`, `uploadedAt`) are required by the type;
in particular a response value may carry neither a cached flag nor a
fingerprint. -/
theorem response_optional_fields :
    ∃ r : S3Response, r.hash = none ∧ r.cached = none ∧ r.cacheKey = none ∧
      r.metadata = none :=
  ⟨{ url := "https://softvence-s3-example.s3.us-east-1.amazonaws.com/documents/f.txt"
     bucket := "softvence-s3-example", region := "us-east-1", originalName := "f.txt"
     size := 1, mimeType := "text/plain", extension := "txt", folder := "documents"
     hash := none, cached := none, cacheKey := none, uploadedAt := 0, metadata := none },
   rfl, rfl, rfl, rfl⟩

/-- C10: `defaultMetadata` sets the optional display name and the optional
precomputed fingerprint to the empty string rather than leaving them absent,
so a call without caller metadata behaves exactly as one whose metadata has
`actualFileName = ""` and `fileHash = ""` (with the default limits). -/
theorem default_metadata_empty_strings (client : StorageClient) (cfg : S3ModuleOptions)
    (p : Payload) (st : GatewayState) :
    defaultMetadata.actualFileName = "" ∧
    defaultMetadata.fileHash = "" ∧
    uploadOne client cfg p none st =
      uploadOne client cfg p
        (some { maxFileSize := defaultMetadata.maxFileSize
                maxFiles := defaultMetadata.maxFiles
                actualFileName := ""
                fileHash := "" }) st :=
  ⟨rfl, rfl, rfl⟩

/-- C7: when the caller supplies no limits, the defaults used are 20 MiB
(`20 * 1024 * 1024` bytes) per file and 20 files per batch: the entry points
resolve absent metadata to `defaultMetadata`, a payload one byte over
`20 * 1024 * 1024` then fails `PayloadTooLarge` and a batch of 21 payloads
fails `TooManyFiles`. -/
theorem default_limits (client : StorageClient) (cfg : S3ModuleOptions)
    (p : Payload) (ps : List Payload) (st : GatewayState) :
    defaultMetadata.maxFileSize = 20 * 1024 * 1024 ∧
    defaultMetadata.maxFiles = 20 ∧
    uploadOne client cfg p none st = uploadOneWith client cfg p defaultMetadata st ∧
    (p.size = 20 * 1024 * 1024 + 1 →
      (uploadOne client cfg p none st).1 =
        .error (.PayloadTooLarge p.originalname p.size defaultMetadata.maxFileSize)) ∧
    (ps.length = 21 →
      (uploadMany client cfg ps none st).1 =
        .error (.TooManyFiles ps.length defaultMetadata.maxFiles)) := by
  refine ⟨rfl, rfl, rfl, ?_, ?_⟩
  · intro h
    have hlt : defaultMetadata.maxFileSize < p.size := by rw [h]; decide
    show (uploadOneWith client cfg p defaultMetadata st).1 = _
    rw [uploadOneWith_too_large client cfg p defaultMetadata st hlt]
  · intro h
    cases ps with
    | nil => simp at h
    | cons q qs =>
      have hlt : defaultMetadata.maxFiles < qs.length + 1 := by
        show 20 < qs.length + 1
        have := h
        simp only [List.length_cons] at this
        omega
      simp [uploadMany, hlt]

/-- C7 witness: the boundary behaviors at the concrete default limits — a
declared 20 MiB + 1 payload and a batch of 21 payloads. -/
theorem default_limits_witness :
    (uploadOne testClient testCfg bigPayload none initState).1 =
      .error (.PayloadTooLarge bigPayload.originalname bigPayload.size
                defaultMetadata.maxFileSize) ∧
    (uploadMany testClient testCfg (List.replicate 21 testPayload) none initState).1 =
      .error (.TooManyFiles (List.replicate 21 testPayload).length
                defaultMetadata.maxFiles) :=
  ⟨(default_limits testClient testCfg bigPayload [] initState).2.2.2.1 (by decide),
   (default_limits testClient testCfg bigPayload (List.replicate 21 testPayload)
      initState).2.2.2.2 (by decide)⟩

/-- C1: with caching enabled (and a positive TTL), two sequential `uploadOne`
calls with the same byte contents, starting from a state where the
fingerprint is not cached, perform exactly one storage-client put (the put
log grows by one over both calls); the second call's result has
`cached = true`, `cacheKey` set, `hash` set to the fingerprint, and its
`url`, `bucket` and `region` equal those of the first call's result. -/
theorem dedup_second_call_cached (client : StorageClient) (cfg : S3ModuleOptions)
    (p : Payload) (meta : Metadata) (st : GatewayState) (pr : PutResult)
    (hc : cfg.cache.isCache = true)
    (httl : 0 < cfg.cache.ttl)
    (hsize : ¬ meta.maxFileSize < p.size)
    (hmiss : cacheGet st.cache st.now (cacheKeyOf cfg (sha256Hex p.buffer)) = none)
    (hput : client p.buffer (objectKeyOf (classifyFolder p.mimetype) p) p.mimetype =
      .ok pr) :
    ∃ r1 r2 st1 st2,
      uploadOneWith client cfg p meta st = (.ok r1, st1) ∧
      uploadOneWith client cfg p meta st1 = (.ok r2, st2) ∧
      st2.putLog.length = st.putLog.length + 1 ∧
      r2.cached = some true ∧
      r2.cacheKey = some (cacheKeyOf cfg (sha256Hex p.buffer)) ∧
      r2.hash = some (sha256Hex p.buffer) ∧
      r2.url = r1.url ∧ r2.bucket = r1.bucket ∧ r2.region = r1.region := by
  have h1 := uploadOneWith_miss_eq client cfg p meta st pr hsize hc hmiss hput
  have hnowlt : st.now < st.now + cfg.cache.ttl := Nat.lt_add_of_pos_right httl
  have hstep : cacheGet (st.cache ++
      [{ key := cacheKeyOf cfg (sha256Hex p.buffer)
         expiresAt := st.now + cfg.cache.ttl
         value := buildResponse pr p (classifyFolder p.mimetype)
                    (some (sha256Hex p.buffer)) meta st.now }])
      st.now (cacheKeyOf cfg (sha256Hex p.buffer)) =
      some (buildResponse pr p (classifyFolder p.mimetype)
              (some (sha256Hex p.buffer)) meta st.now) := by
    rw [cacheGet_append_none hmiss]
    simp [cacheGet, hnowlt]
  have h2 := uploadOneWith_hit_eq client cfg p meta
    ({ st with
        putLog := st.putLog ++
          [{ bytes := p.buffer, key := objectKeyOf (classifyFolder p.mimetype) p,
             contentType := p.mimetype }]
        cache := st.cache ++
          [{ key := cacheKeyOf cfg (sha256Hex p.buffer)
             expiresAt := st.now + cfg.cache.ttl
             value := buildResponse pr p (classifyFolder p.mimetype)
                        (some (sha256Hex p.buffer)) meta st.now }] })
    (buildResponse pr p (classifyFolder p.mimetype) (some (sha256Hex p.buffer)) meta st.now)
    hsize hc hstep
  exact ⟨_, _, _, _, h1, h2, by simp, rfl, rfl, rfl, rfl, rfl, rfl⟩

/-- C1 witness: the dedup scenario evaluated concretely — `testPayload`
uploaded twice through `testClient` with caching enabled from the initial
state. -/
theorem dedup_witness :
    ∃ r1 r2 st1 st2,
      uploadOneWith testClient testCfg testPayload defaultMetadata initState =
        (.ok r1, st1) ∧
      uploadOneWith testClient testCfg testPayload defaultMetadata st1 = (.ok r2, st2) ∧
      st2.putLog.length = initState.putLog.length + 1 ∧
      r2.cached = some true ∧
      r2.cacheKey = some (cacheKeyOf testCfg (sha256Hex testPayload.buffer)) ∧
      r2.hash = some (sha256Hex testPayload.buffer) ∧
      r2.url = r1.url ∧ r2.bucket = r1.bucket ∧ r2.region = r1.region :=
  dedup_second_call_cached testClient testCfg testPayload defaultMetadata initState
    { url := "https://softvence-s3-example.s3.us-east-1.amazonaws.com/images/a.png"
      bucket := "softvence-s3-example", region := "us-east-1" }
    rfl (by decide) (by decide) rfl rfl

/-- C8: with caching disabled, two sequential `uploadOne` calls with
identical byte contents invoke the storage client's put operation twice (the
put log grows by two) and both results have `cached = false`. -/
theorem nocache_two_puts (client : StorageClient) (cfg : S3ModuleOptions)
    (p : Payload) (meta : Metadata) (st : GatewayState) (pr : PutResult)
    (hc : cfg.cache.isCache = false)
    (hsize : ¬ meta.maxFileSize < p.size)
    (hput : client p.buffer (objectKeyOf (classifyFolder p.mimetype) p) p.mimetype =
      .ok pr) :
    ∃ r1 r2 st1 st2,
      uploadOneWith client cfg p meta st = (.ok r1, st1) ∧
      uploadOneWith client cfg p meta st1 = (.ok r2, st2) ∧
      st2.putLog.length = st.putLog.length + 2 ∧
      r1.cached = some false ∧ r2.cached = some false := by
  have h1 := uploadOneWith_nocache_ok client cfg p meta st pr hsize hc hput
  have h2 := uploadOneWith_nocache_ok client cfg p meta
    ({ st with
        putLog := st.putLog ++
          [{ bytes := p.buffer, key := objectKeyOf (classifyFolder p.mimetype) p,
             contentType := p.mimetype }] })
    pr hsize hc hput
  exact ⟨_, _, _, _, h1, h2, by simp, rfl, rfl⟩

/-- C8 witness: the cache-disabled scenario evaluated concretely. -/
theorem nocache_witness :
    ∃ r1 r2 st1 st2,
      uploadOneWith testClient testCfgNoCache testPayload defaultMetadata initState =
        (.ok r1, st1) ∧
      uploadOneWith testClient testCfgNoCache testPayload defaultMetadata st1 =
        (.ok r2, st2) ∧
      st2.putLog.length = initState.putLog.length + 2 ∧
      r1.cached = some false ∧ r2.cached = some false :=
  nocache_two_puts testClient testCfgNoCache testPayload defaultMetadata initState
    { url := "https://softvence-s3-example.s3.us-east-1.amazonaws.com/images/a.png"
      bucket := "softvence-s3-example", region := "us-east-1" }
    rfl (by decide) rfl

/-- C3: limit enforcement at the boundaries — a payload of
`maxFileSize + 1` bytes fails with `PayloadTooLarge`; a payload of exactly
`maxFileSize` bytes succeeds (given a succeeding storage client; stated on
the cache-disabled configuration so that the put path is taken); a batch of
`maxFiles + 1` payloads fails with `TooManyFiles`; an empty batch fails with
`NoFilesProvided`. -/
theorem limit_boundaries (client : StorageClient) (cfg : S3ModuleOptions)
    (meta : Metadata) (st : GatewayState) :
    (∀ p : Payload, p.size = meta.maxFileSize + 1 →
      (uploadOne client cfg p (some meta) st).1 =
        .error (.PayloadTooLarge p.originalname p.size meta.maxFileSize)) ∧
    (∀ p : Payload, ∀ pr : PutResult, p.size = meta.maxFileSize →
      cfg.cache.isCache = false →
      client p.buffer (objectKeyOf (classifyFolder p.mimetype) p) p.mimetype = .ok pr →
      ∃ r, (uploadOne client cfg p (some meta) st).1 = .ok r) ∧
    (∀ ps : List Payload, ps.length = meta.maxFiles + 1 →
      (uploadMany client cfg ps (some meta) st).1 =
        .error (.TooManyFiles ps.length meta.maxFiles)) ∧
    (uploadMany client cfg [] (some meta) st).1 = .error .NoFilesProvided := by
  refine ⟨?_, ?_, ?_, ?_⟩
  · intro p hp
    have hlt : meta.maxFileSize < p.size := by omega
    show (uploadOneWith client cfg p meta st).1 = _
    rw [uploadOneWith_too_large client cfg p meta st hlt]
  · intro p pr hp hc hput
    have hsize : ¬ meta.maxFileSize < p.size := by omega
    refine ⟨buildResponse pr p (classifyFolder p.mimetype) none meta st.now, ?_⟩
    show (uploadOneWith client cfg p meta st).1 = _
    rw [uploadOneWith_nocache_ok client cfg p meta st pr hsize hc hput]
  · intro ps hps
    cases ps with
    | nil => simp at hps
    | cons q qs =>
      have hlt : meta.maxFiles < qs.length + 1 := by
        simp only [List.length_cons] at hps
        omega
      simp [uploadMany, hlt]
  · simp [uploadMany]

/-- C3 witness: the boundaries evaluated at `smallMeta` (limit 4 bytes,
2 files): a 5-byte payload, a 4-byte payload, a 3-element batch and the
empty batch. -/
theorem limit_boundaries_witness :
    (uploadOne testClient testCfgNoCache overPayload (some smallMeta) initState).1 =
      .error (.PayloadTooLarge overPayload.originalname overPayload.size
                smallMeta.maxFileSize) ∧
    (∃ r, (uploadOne testClient testCfgNoCache exactPayload (some smallMeta)
            initState).1 = .ok r) ∧
    (uploadMany testClient testCfgNoCache [testPayload, pdfPayload, exactPayload]
      (some smallMeta) initState).1 =
      .error (.TooManyFiles [testPayload, pdfPayload, exactPayload].length
                smallMeta.maxFiles) ∧
    (uploadMany testClient testCfgNoCache [] (some smallMeta) initState).1 =
      .error .NoFilesProvided :=
  ⟨(limit_boundaries testClient testCfgNoCache smallMeta initState).1 overPayload
     (by decide),
   (limit_boundaries testClient testCfgNoCache smallMeta initState).2.1 exactPayload
     { url := "https://softvence-s3-example.s3.us-east-1.amazonaws.com/documents/exact.txt"
       bucket := "softvence-s3-example", region := "us-east-1" }
     (by decide) rfl rfl,
   (limit_boundaries testClient testCfgNoCache smallMeta initState).2.2.1
     [testPayload, pdfPayload, exactPayload] (by decide),
   (limit_boundaries testClient testCfgNoCache smallMeta initState).2.2.2⟩

/-- C6: batch failure is fail-fast without rollback — if the first payload
succeeds and the second payload's per-item upload fails, the whole batch
fails with that error (no partial result list is returned, by the result
type), the payloads after the failing one are never processed (the final
state is exactly the state at the failure), and the put already performed
for the first payload is still in the put log (nothing is removed from the
object store). -/
theorem batch_failfast_no_rollback (client : StorageClient) (cfg : S3ModuleOptions)
    (meta : Metadata) (p1 p2 : Payload) (rest : List Payload)
    (st st1 st2 : GatewayState) (r1 : S3Response) (e : S3Error)
    (hcount : rest.length + 2 ≤ meta.maxFiles)
    (h1 : uploadOneWith client cfg p1 meta st = (.ok r1, st1))
    (h2 : uploadOneWith client cfg p2 meta st1 = (.error e, st2)) :
    uploadMany client cfg (p1 :: p2 :: rest) (some meta) st = (.error e, st2) ∧
    ∃ l, st2.putLog = st1.putLog ++ l := by
  constructor
  · have hlen : ¬ meta.maxFiles < rest.length + 1 + 1 := by omega
    simp [uploadMany, hlen, uploadManyWith, h1, h2]
  · obtain ⟨l, hl⟩ := uploadOneWith_putLog_extends client cfg p2 meta st1
    rw [h2] at hl
    exact ⟨l, hl⟩

/-- C6 witness: a concrete three-item batch through `failingClient` whose
second item's put fails. -/
theorem batch_failfast_witness :
    uploadMany failingClient testCfgNoCache [testPayload, failPayload, pdfPayload]
      (some defaultMetadata) initState =
      (.error (.UploadFailed "network down"), stAfterFail) ∧
    ∃ l, stAfterFail.putLog = stAfterFirst.putLog ++ l :=
  batch_failfast_no_rollback failingClient testCfgNoCache defaultMetadata testPayload
    failPayload [pdfPayload] initState stAfterFirst stAfterFail respFirst
    (.UploadFailed "network down") (by decide) (by rfl) (by rfl)

set_option maxRecDepth 100000 in
/-- C5 counterexample: with caching enabled, a batch of two identical
payloads is NOT independent — the batch `[testPayload]` alone and the single
upload both give `dupFirst` with `cached = false`, but in the batch
`[testPayload, testPayload]` the second payload's result `dupSecond` is
served from the cache populated by the first (`cached = true`) and differs
from that payload's standalone result, so a result does depend on another
payload of the batch. -/
theorem batch_dependence_counterexample :
    (uploadMany testClient testCfg [testPayload, testPayload] none initState).1 =
      .ok [dupFirst, dupSecond] ∧
    (uploadMany testClient testCfg [testPayload] none initState).1 = .ok [dupFirst] ∧
    (uploadOne testClient testCfg testPayload none initState).1 = .ok dupFirst ∧
    dupFirst.cached = some false ∧
    dupSecond.cached = some true ∧
    dupSecond ≠ dupFirst :=
  ⟨by rfl, by rfl, by rfl, by rfl, by rfl, by decide⟩

/-- C5 amended: `uploadMany` applies `uploadOne` to each payload in input
order — whenever it succeeds (with caching enabled or disabled) it returns
exactly one result per payload, in the order of the inputs, the i-th result
being that of `uploadOne` on the i-th payload in the state reached after the
earlier payloads of the batch; with caching disabled each result is
additionally independent of the other payloads — the i-th result equals the
result of `uploadOne` applied to the i-th payload alone from the initial
state. -/
theorem batch_order_and_nocache_independence (client : StorageClient)
    (cfg : S3ModuleOptions) (meta : Metadata) (ps : List Payload)
    (st : GatewayState) (rs : List S3Response)
    (h : (uploadManyWith client cfg ps meta st).1 = .ok rs) :
    rs.length = ps.length ∧
    (∀ i, i < ps.length →
      (uploadOneWith client cfg (ps.getD i dummyPayload) meta
          (stateAfter client cfg meta (ps.take i) st)).1 =
        .ok (rs.getD i dummyResponse)) ∧
    (cfg.cache.isCache = false →
      ∀ i, i < ps.length →
        (uploadOneWith client cfg (ps.getD i dummyPayload) meta st).1 =
          .ok (rs.getD i dummyResponse)) := by
  induction ps generalizing st rs with
  | nil =>
    simp only [uploadManyWith] at h
    have hrs : ([] : List S3Response) = rs := by simpa using h
    subst hrs
    exact ⟨rfl, fun i hi => by simp at hi, fun _ i hi => by simp at hi⟩
  | cons p ps ih =>
    rcases hstep : uploadOneWith client cfg p meta st with ⟨res1, st1⟩
    cases res1 with
    | error e =>
      simp only [uploadManyWith, hstep] at h
      exact absurd h (by simp)
    | ok r =>
      simp only [uploadManyWith, hstep] at h
      rcases hrest : uploadManyWith client cfg ps meta st1 with ⟨res2, st2⟩
      cases res2 with
      | error e2 =>
        rw [hrest] at h
        simp at h
      | ok rs2 =>
        rw [hrest] at h
        simp only at h
        have hrs : r :: rs2 = rs := by simpa using h
        subst hrs
        obtain ⟨hlen, hmid, hind⟩ := ih st1 rs2 (by rw [hrest])
        have hst1 : (uploadOneWith client cfg p meta st).2 = st1 :=
          congrArg Prod.snd hstep
        refine ⟨by simp [hlen], ?_, ?_⟩
        · intro i hi
          cases i with
          | zero =>
            simp only [List.getD_cons_zero, List.take_zero, stateAfter]
            simpa using congrArg Prod.fst hstep
          | succ j =>
            have hj : j < ps.length := by simpa using hi
            simp only [List.getD_cons_succ, List.take_succ_cons, stateAfter, hst1]
            exact hmid j hj
        · intro hc i hi
          cases i with
          | zero =>
            simpa using congrArg Prod.fst hstep
          | succ j =>
            have hj : j < ps.length := by simpa using hi
            have hnow : st.now = st1.now := by
              have hn := uploadOneWith_now client cfg p meta st
              rw [hstep] at hn
              exact hn.symm
            have hconv := uploadOneWith_nocache_fst client cfg (ps.getD j dummyPayload)
              meta st st1 hc hnow
            simp only [List.getD_cons_succ]
            rw [hconv]
            exact hind hc j hj

/-- C5 amended witness: a concrete two-distinct-payload batch with caching
disabled — two results in input order, each equal to its payload's upload
result both at the batch's intermediate state and standalone from the
initial state. -/
theorem batch_independence_witness :
    pairResults.length = [testPayload, pdfPayload].length ∧
    (∀ i, i < [testPayload, pdfPayload].length →
      (uploadOneWith testClient testCfgNoCache
          ([testPayload, pdfPayload].getD i dummyPayload) defaultMetadata
          (stateAfter testClient testCfgNoCache defaultMetadata
            ([testPayload, pdfPayload].take i) initState)).1 =
        .ok (pairResults.getD i dummyResponse)) ∧
    (testCfgNoCache.cache.isCache = false →
      ∀ i, i < [testPayload, pdfPayload].length →
        (uploadOneWith testClient testCfgNoCache
            ([testPayload, pdfPayload].getD i dummyPayload) defaultMetadata initState).1 =
          .ok (pairResults.getD i dummyResponse)) :=
  batch_order_and_nocache_independence testClient testCfgNoCache defaultMetadata
    [testPayload, pdfPayload] initState pairResults (by rfl)
